import Mathlib

/-!
Shallow embedding of the GpuOperator controller (internal/controller, the
Reconcile function and its helpers) together with the api/v1alpha1 types.

The controller talks to the cluster through a client; one reconcile tick
performs a bounded, fixed sequence of API calls. We model the tick as a pure
function over an environment of oracles, one per API call the Go code makes,
and record every mutating API call the tick attempts in a list of writes.
Machine integers (Generation, ObservedGeneration) are modelled as Int;
Go string-typed enums (State, ConditionStatus, job condition types) are
modelled as String, exactly as in the source.
-/

namespace GpuOp

/-- String constants from api/v1alpha1 (State values) and the controller. -/
def StateReady : String := "Ready"

def StateProcessing : String := "Processing"

def StateError : String := "Error"

def StateDeleting : String := "Deleting"

/-- Controller constants (internal/controller, const block). -/
def finalizerName : String := "operator.kyma-project.io/gpu-operator-finalizer"

def conditionTypeReady : String := "Ready"

def conditionTypeInstalled : String := "Installed"

def installJobName : String := "gpu-operator-install"

def uninstallJobName : String := "gpu-operator-uninstall"

/-- metav1.Condition restricted to the fields the controller sets. Times are
abstract Nat instants (metav1.Now() at the tick's time). -/
structure Condition where
  type_ : String
  status : String
  reason : String
  message : String
  observedGeneration : Int
  lastTransitionTime : Nat
deriving DecidableEq, Repr

/-- batchv1.JobCondition restricted to the fields isJobCompleted reads
(Type, Status, Message). Type is "Complete" or "Failed"; Status is
"True", "False" or "Unknown". -/
structure JobCondition where
  type_ : String
  status : String
  message : String
deriving DecidableEq, Repr

/-- batchv1.Job restricted to status.conditions, the only part read. -/
structure Job where
  conditions : List JobCondition
deriving DecidableEq, Repr

/-- GpuOperatorSpec from api/v1alpha1 (resource hints omitted: never read by
the controller). nspace is the Go field Namespace (a Lean keyword). -/
structure GpuOperatorSpec where
  driverVersion : String
  nspace : String
  valuesConfigMapName : String
deriving DecidableEq, Repr

/-- GpuOperatorStatus from api/v1alpha1: inlined Status.State plus
Conditions, InstalledVersion, ObservedGeneration. -/
structure GpuOperatorStatus where
  state : String
  conditions : List Condition
  installedVersion : String
  observedGeneration : Int
deriving DecidableEq, Repr

/-- GpuOperator: the metadata fields the controller reads or writes
(Generation, DeletionTimestamp, Finalizers, and the Namespace the CR lives
in — read by SetControllerReference's owner validation) plus Spec and
Status. nspace is ObjectMeta.Namespace. -/
structure GpuOperator where
  nspace : String
  generation : Int
  deletionTimestamp : Option Nat
  finalizers : List String
  spec : GpuOperatorSpec
  status : GpuOperatorStatus
deriving DecidableEq, Repr

/-- Result of a client Get: the object, a NotFound error, or another error
carrying the message err.Error() would yield. -/
inductive GetResult (α : Type) where
  | found (a : α)
  | notFound
  | error (msg : String)
deriving DecidableEq, Repr

/-- Result of a client Create: success, an AlreadyExists error, or another
error, each error carrying its message. -/
inductive CreateResult where
  | ok
  | alreadyExists (msg : String)
  | error (msg : String)
deriving DecidableEq, Repr

/-- One mutating API call attempted during a tick. statusUpdate carries the
status being written (r.Status().Update), update the full object
(r.Update, used for finalizer changes); the create calls carry the
namespace (or name) of the object being created. The Go code contains no
call creating ClusterRoles or ClusterRoleBindings; those constructors exist
so their absence from every tick's writes is expressible. -/
inductive Write where
  | statusUpdate (st : GpuOperatorStatus)
  | update (op : GpuOperator)
  | createNamespace (name : String)
  | createServiceAccount (nspace : String)
  | createClusterRole (name : String)
  | createClusterRoleBinding (name : String)
  | createInstallJob (nspace : String)
  | createUninstallJob (nspace : String)
deriving DecidableEq, Repr

/-- Whether a write would create an RBAC object. -/
def isRBACWrite : Write → Bool
  | .createClusterRole _ => true
  | .createClusterRoleBinding _ => true
  | _ => false

/-- The oracles for the API calls one reconcile tick can make, in the order
the Go code makes them, plus the tick's clock. getInstallJob backs the Get
inside createHelmInstallJob; getInstallJob2 the later Get inside
isJobCompleted (two separate API calls in the source). statusUpdate and
update are none on success, some message on failure. -/
structure Env where
  getGpuOperator : GetResult GpuOperator
  getNamespace : GetResult Unit
  createNamespace : CreateResult
  getServiceAccount : GetResult Unit
  createServiceAccount : CreateResult
  getInstallJob : GetResult Job
  createInstallJob : CreateResult
  getInstallJob2 : GetResult Job
  createUninstallJob : CreateResult
  statusUpdate : Option String
  update : Option String
  now : Nat
deriving DecidableEq, Repr

/-- What one Reconcile call returns and did: the ctrl.Result's RequeueAfter
in seconds (0 = none), the returned error, the attempted mutating API calls
in order, and the in-memory object as the tick left it (none when the
initial Get did not return the object). -/
structure Outcome where
  requeueAfter : Nat
  error : Option String
  writes : List Write
  final : Option GpuOperator
deriving DecidableEq, Repr

/-- Prepends already-performed writes to a continuation's outcome. -/
def withPrewrites (ws : List Write) (o : Outcome) : Outcome :=
  { o with writes := ws ++ o.writes }

/-- The target namespace: spec.Namespace, defaulting to "gpu-operator" when
empty (Reconcile, namespace defaulting). -/
def effectiveNamespace (g : GpuOperator) : String :=
  if g.spec.nspace = "" then "gpu-operator" else g.spec.nspace

/-- The loop body of isJobCompleted over job.Status.Conditions: the first
condition with Type Complete and Status True yields (true, nil); the first
with Type Failed and Status True yields (false, an error wrapping the
condition's message); otherwise (false, nil). -/
def jobConditionsOutcome : List JobCondition → Bool × Option String
  | [] => (false, none)
  | c :: rest =>
    if c.type_ = "Complete" ∧ c.status = "True" then (true, none)
    else if c.type_ = "Failed" ∧ c.status = "True" then
      (false, some ("helm installation job failed: " ++ c.message))
    else jobConditionsOutcome rest

/-- isJobCompleted: Get the job; NotFound is (false, nil); another Get error
is returned; otherwise inspect the conditions. -/
def isJobCompleted : GetResult Job → Bool × Option String
  | .notFound => (false, none)
  | .error m => (false, some m)
  | .found job => jobConditionsOutcome job.conditions

/-- ensureServiceAccount: Get; on NotFound return the Create's result
directly (an AlreadyExists failure of the Create is returned as an error,
unlike the namespace path); a non-NotFound Get error is returned. The write
list records the attempted Create. -/
def ensureServiceAccount (nspace : String) (getSA : GetResult Unit)
    (createSA : CreateResult) : Option String × List Write :=
  match getSA with
  | .found _ => (none, [])
  | .notFound =>
    match createSA with
    | .ok => (none, [Write.createServiceAccount nspace])
    | .alreadyExists m => (some m, [Write.createServiceAccount nspace])
    | .error m => (some m, [Write.createServiceAccount nspace])
  | .error m => (some m, [])

/-- The inline namespace-ensure block of Reconcile: Get; on NotFound,
Create, ignoring an AlreadyExists error; a non-NotFound Get error or another
Create error flows to updateStatusError. -/
def ensureNamespace (nspace : String) (getNs : GetResult Unit)
    (createNs : CreateResult) : Option String × List Write :=
  match getNs with
  | .found _ => (none, [])
  | .notFound =>
    match createNs with
    | .ok => (none, [Write.createNamespace nspace])
    | .alreadyExists _ => (none, [Write.createNamespace nspace])
    | .error m => (some m, [Write.createNamespace nspace])
  | .error m => (some m, [])

/-- ensureRBAC: the Go body is a bare return nil (the installer relies on
the controller's own permissions); no object is read or created. -/
def ensureRBAC (_nspace : String) : Option String × List Write :=
  (none, [])

/-- controllerutil.SetControllerReference (controller-runtime v0.19.3) as
invoked on the freshly built install job: the scheme lookup succeeds (the
GpuOperator type is registered) and the fresh in-memory job carries no prior
controller reference, so the only reachable failure is validateOwner's
cross-namespace check: a namespaced owner must live in the object's
namespace (the object's namespace, effectiveNamespace, is never empty).
The message follows controller-runtime's validateOwner. -/
def setControllerReference (ownerNs objNs : String) : Option String :=
  if ownerNs ≠ "" ∧ ownerNs ≠ objNs then
    some ("cross-namespace owner references are disallowed, owner's namespace "
      ++ ownerNs ++ ", obj's namespace " ++ objNs)
  else none

/-- createHelmInstallJob: build the job, then SetControllerReference with
the CR as owner — its failure (a CR whose metadata.namespace differs from
the target namespace) is wrapped and returned before the Get; otherwise Get
the job by its fixed name; if present, return nil with no further call; on
NotFound, Create it (any Create error is wrapped and returned); a
non-NotFound Get error is wrapped and returned. -/
def createHelmInstallJob (ownerNs nspace : String) (getJob : GetResult Job)
    (createJob : CreateResult) : Option String × List Write :=
  match setControllerReference ownerNs nspace with
  | some m => (some ("failed to set owner reference: " ++ m), [])
  | none =>
  match getJob with
  | .found _ => (none, [])
  | .notFound =>
    match createJob with
    | .ok => (none, [Write.createInstallJob nspace])
    | .alreadyExists m =>
      (some ("failed to create job: " ++ m), [Write.createInstallJob nspace])
    | .error m =>
      (some ("failed to create job: " ++ m), [Write.createInstallJob nspace])
  | .error m => (some ("failed to get existing job: " ++ m), [])

/-- The single condition updateStatusError writes: type Ready, status False,
reason ReconciliationFailed, the error's message, the current generation and
time. -/
def errorCondition (env : Env) (g : GpuOperator) (msg : String) : Condition :=
  { type_ := conditionTypeReady
  , status := "False"
  , reason := "ReconciliationFailed"
  , message := msg
  , observedGeneration := g.generation
  , lastTransitionTime := env.now }

/-- The status updateStatusError writes: state Error and the single failure
condition; ObservedGeneration and InstalledVersion are left untouched. -/
def errorStatus (env : Env) (g : GpuOperator) (msg : String) : GpuOperatorStatus :=
  { g.status with state := StateError, conditions := [errorCondition env g msg] }

/-- updateStatusError: set state Error and the single condition, attempt the
status write (its own failure is only logged), and return the original
error. -/
def updateStatusError (env : Env) (g : GpuOperator) (msg : String) : Outcome :=
  let g' : GpuOperator := { g with status := errorStatus env g msg }
  { requeueAfter := 0, error := some msg
  , writes := [Write.statusUpdate g'.status], final := some g' }

/-- The overall-readiness condition of the Ready write. -/
def readyCondition (env : Env) (g : GpuOperator) : Condition :=
  { type_ := conditionTypeReady
  , status := "True"
  , reason := "GpuOperatorReady"
  , message := "GPU Operator installed successfully following Gardener AI conformance guide"
  , observedGeneration := g.generation
  , lastTransitionTime := env.now }

/-- The installation-completed condition of the Ready write. -/
def installedCondition (env : Env) (g : GpuOperator) : Condition :=
  { type_ := conditionTypeInstalled
  , status := "True"
  , reason := "HelmInstallComplete"
  , message := "NVIDIA GPU Operator installed via Helm with Garden Linux optimized values"
  , observedGeneration := g.generation
  , lastTransitionTime := env.now }

/-- The status the Ready write persists: state Ready, ObservedGeneration
advanced to the current generation, InstalledVersion set to
spec.DriverVersion, and the two success conditions replacing the list. -/
def readyStatus (env : Env) (g : GpuOperator) : GpuOperatorStatus :=
  { state := StateReady
  , conditions := [readyCondition env g, installedCondition env g]
  , installedVersion := g.spec.driverVersion
  , observedGeneration := g.generation }

/-- The final block of Reconcile: build the Ready status, attempt the status
write; on failure return its error. -/
def readyWrite (env : Env) (g : GpuOperator) : Outcome :=
  let g' : GpuOperator := { g with status := readyStatus env g }
  match env.statusUpdate with
  | some m =>
    { requeueAfter := 0, error := some m
    , writes := [Write.statusUpdate g'.status], final := some g' }
  | none =>
    { requeueAfter := 0, error := none
    , writes := [Write.statusUpdate g'.status], final := some g' }

/-- Reconcile after createHelmInstallJob: isJobCompleted; an error flows to
updateStatusError; a not-yet-complete job yields RequeueAfter 10 seconds and
no error; a complete job flows to the Ready write. -/
def pollPhase (env : Env) (g : GpuOperator) : Outcome :=
  let r := isJobCompleted env.getInstallJob2
  match r.2 with
  | some m => updateStatusError env g m
  | none =>
    if r.1 then readyWrite env g
    else { requeueAfter := 10, error := none, writes := [], final := some g }

/-- Reconcile's install-job step: createHelmInstallJob, its error flowing to
updateStatusError, then the poll. -/
def installJobPhase (env : Env) (g : GpuOperator) : Outcome :=
  match createHelmInstallJob g.nspace (effectiveNamespace g) env.getInstallJob
      env.createInstallJob with
  | (some m, ws) => withPrewrites ws (updateStatusError env g m)
  | (none, ws) => withPrewrites ws (pollPhase env g)

/-- Reconcile's RBAC step: ensureRBAC, its error flowing to
updateStatusError, then the install-job step. -/
def rbacPhase (env : Env) (g : GpuOperator) : Outcome :=
  match ensureRBAC (effectiveNamespace g) with
  | (some m, ws) => withPrewrites ws (updateStatusError env g m)
  | (none, ws) => withPrewrites ws (installJobPhase env g)

/-- Reconcile's service-account step. -/
def saPhase (env : Env) (g : GpuOperator) : Outcome :=
  match ensureServiceAccount (effectiveNamespace g) env.getServiceAccount
      env.createServiceAccount with
  | (some m, ws) => withPrewrites ws (updateStatusError env g m)
  | (none, ws) => withPrewrites ws (rbacPhase env g)

/-- Reconcile's namespace step. -/
def nsPhase (env : Env) (g : GpuOperator) : Outcome :=
  match ensureNamespace (effectiveNamespace g) env.getNamespace
      env.createNamespace with
  | (some m, ws) => withPrewrites ws (updateStatusError env g m)
  | (none, ws) => withPrewrites ws (saPhase env g)

/-- Reconcile's Processing step: when status.State differs from Processing,
set it (only the State field) and attempt the status write, whose failure
short-circuits the tick. -/
def processingPhase (env : Env) (g : GpuOperator) : Outcome :=
  if g.status.state ≠ StateProcessing then
    let g' : GpuOperator := { g with status := { g.status with state := StateProcessing } }
    match env.statusUpdate with
    | some m =>
      { requeueAfter := 0, error := some m
      , writes := [Write.statusUpdate g'.status], final := some g' }
    | none => withPrewrites [Write.statusUpdate g'.status] (nsPhase env g')
  else nsPhase env g

/-- Reconcile's finalizer-attach step: when the finalizer is missing, append
it and attempt the object Update, whose failure short-circuits the tick. -/
def addFinalizerPhase (env : Env) (g : GpuOperator) : Outcome :=
  if finalizerName ∈ g.finalizers then processingPhase env g
  else
    let g' : GpuOperator := { g with finalizers := g.finalizers ++ [finalizerName] }
    match env.update with
    | some m =>
      { requeueAfter := 0, error := some m
      , writes := [Write.update g'], final := some g' }
    | none => withPrewrites [Write.update g'] (processingPhase env g')

/-- The status finalizeGpuOperator writes: state Deleting, all else kept. -/
def deletingStatus (g : GpuOperator) : GpuOperatorStatus :=
  { g.status with state := StateDeleting }

/-- The object after the deletion branch: status set to Deleting in memory
and every copy of the finalizer removed (controllerutil.RemoveFinalizer). -/
def finalizedOp (g : GpuOperator) : GpuOperator :=
  { g with
    status := deletingStatus g,
    finalizers := g.finalizers.filter fun f => decide (f ≠ finalizerName) }

/-- Reconcile's deletion branch: when the finalizer is present, run
finalizeGpuOperator (set status to Deleting, attempting the status write
whose failure is only logged; attempt the uninstall-job Create, whose
failure, AlreadyExists included, is only logged; the function always returns
nil), then remove the finalizer and attempt the object Update, whose failure
is returned. Without the finalizer, return at once with no call. -/
def deletionPhase (env : Env) (g : GpuOperator) : Outcome :=
  if finalizerName ∈ g.finalizers then
    let ws : List Write := [Write.statusUpdate (deletingStatus g)
      , Write.createUninstallJob (effectiveNamespace g)
      , Write.update (finalizedOp g)]
    match env.update with
    | some m =>
      { requeueAfter := 0, error := some m, writes := ws, final := some (finalizedOp g) }
    | none =>
      { requeueAfter := 0, error := none, writes := ws, final := some (finalizedOp g) }
  else { requeueAfter := 0, error := none, writes := [], final := some g }

/-- Reconcile: Get the GpuOperator (NotFound is terminal success, another
error is returned); branch on DeletionTimestamp; otherwise the forward path:
finalizer attach, Processing write, namespace, service account, RBAC,
install job, poll, Ready write. -/
def Reconcile (env : Env) : Outcome :=
  match env.getGpuOperator with
  | .notFound => { requeueAfter := 0, error := none, writes := [], final := none }
  | .error m => { requeueAfter := 0, error := some m, writes := [], final := none }
  | .found g =>
    match g.deletionTimestamp with
    | some _ => deletionPhase env g
    | none => addFinalizerPhase env g

/-- Invariant satisfied by every write of a tick that loaded the resource g:
a status write with state Ready happens only when the poll reported the job
complete, and advances ObservedGeneration to the generation and
InstalledVersion to spec.DriverVersion; a status write with any other state
leaves ObservedGeneration at its loaded value; an install-job Create targets
the effective namespace and happens only when the job was absent; no RBAC
object is ever created. -/
def writeInv (env : Env) (g : GpuOperator) : Write → Prop
  | .statusUpdate st =>
    (st.state = StateReady →
      isJobCompleted env.getInstallJob2 = (true, none) ∧
      st.observedGeneration = g.generation ∧
      st.installedVersion = g.spec.driverVersion) ∧
    (st.state ≠ StateReady → st.observedGeneration = g.status.observedGeneration)
  | .createInstallJob n => n = effectiveNamespace g ∧ env.getInstallJob = GetResult.notFound
  | .createClusterRole _ => False
  | .createClusterRoleBinding _ => False
  | _ => True

/-- A job whose sole condition is Complete True, as a completed install job
reports. -/
def jobDone : Job := ⟨[⟨"Complete", "True", "install complete"⟩]⟩

/-- A job still running: no terminal condition yet. -/
def jobRunning : Job := ⟨[]⟩

/-- A job whose sole condition is Failed True with message timeout. -/
def jobFailedTimeout : Job := ⟨[⟨"Failed", "True", "timeout"⟩]⟩

/-- A fully converged GpuOperator: state Ready, finalizer present,
ObservedGeneration equal to the generation, the canonical Ready conditions
timestamped 0. -/
def gConv : GpuOperator :=
  { generation := 3
  , nspace := "gpu-operator"
  , deletionTimestamp := none
  , finalizers := [finalizerName]
  , spec := { driverVersion := "570", nspace := "", valuesConfigMapName := "" }
  , status :=
    { state := StateReady
    , conditions :=
      [ { type_ := "Ready", status := "True", reason := "GpuOperatorReady"
        , message := "GPU Operator installed successfully following Gardener AI conformance guide"
        , observedGeneration := 3, lastTransitionTime := 0 }
      , { type_ := "Installed", status := "True", reason := "HelmInstallComplete"
        , message := "NVIDIA GPU Operator installed via Helm with Garden Linux optimized values"
        , observedGeneration := 3, lastTransitionTime := 0 } ]
    , installedVersion := "570"
    , observedGeneration := 3 } }

/-- A tick on the converged resource: everything present, the install job
complete, every write succeeding. -/
def envConv : Env :=
  { getGpuOperator := GetResult.found gConv
  , getNamespace := GetResult.found ()
  , createNamespace := CreateResult.ok
  , getServiceAccount := GetResult.found ()
  , createServiceAccount := CreateResult.ok
  , getInstallJob := GetResult.found jobDone
  , createInstallJob := CreateResult.ok
  , getInstallJob2 := GetResult.found jobDone
  , createUninstallJob := CreateResult.ok
  , statusUpdate := none
  , update := none
  , now := 0 }

/-- A resource mid-processing: generation 2 not yet observed. -/
def gProc : GpuOperator :=
  { generation := 2
  , nspace := "gpu-operator"
  , deletionTimestamp := none
  , finalizers := [finalizerName]
  , spec := { driverVersion := "570", nspace := "", valuesConfigMapName := "" }
  , status := { state := StateProcessing, conditions := [], installedVersion := "", observedGeneration := 0 } }

/-- A tick in which the install job has failed with message timeout. -/
def envFailed : Env :=
  { getGpuOperator := GetResult.found gProc
  , getNamespace := GetResult.found ()
  , createNamespace := CreateResult.ok
  , getServiceAccount := GetResult.found ()
  , createServiceAccount := CreateResult.ok
  , getInstallJob := GetResult.found jobFailedTimeout
  , createInstallJob := CreateResult.ok
  , getInstallJob2 := GetResult.found jobFailedTimeout
  , createUninstallJob := CreateResult.ok
  , statusUpdate := none
  , update := none
  , now := 7 }

/-- A resource at generation 5 whose status has not observed it. -/
def gGen5 : GpuOperator :=
  { generation := 5
  , nspace := "gpu-operator"
  , deletionTimestamp := none
  , finalizers := [finalizerName]
  , spec := { driverVersion := "570", nspace := "", valuesConfigMapName := "" }
  , status := { state := StateProcessing, conditions := [], installedVersion := "", observedGeneration := 0 } }

/-- A tick on gGen5 in which the service-account Get fails hard, so the tick
ends in updateStatusError. -/
def envSaError : Env :=
  { getGpuOperator := GetResult.found gGen5
  , getNamespace := GetResult.found ()
  , createNamespace := CreateResult.ok
  , getServiceAccount := GetResult.error "boom"
  , createServiceAccount := CreateResult.ok
  , getInstallJob := GetResult.found jobRunning
  , createInstallJob := CreateResult.ok
  , getInstallJob2 := GetResult.found jobRunning
  , createUninstallJob := CreateResult.ok
  , statusUpdate := none
  , update := none
  , now := 1 }

/-- A fresh resource: no finalizer, empty status. -/
def gFresh : GpuOperator :=
  { generation := 1
  , nspace := "gpu-operator"
  , deletionTimestamp := none
  , finalizers := []
  , spec := { driverVersion := "570", nspace := "", valuesConfigMapName := "" }
  , status := { state := "", conditions := [], installedVersion := "", observedGeneration := 0 } }

/-- A first tick on the fresh resource: nothing exists yet, every create
succeeds, the just-created job has no terminal condition. -/
def envFresh : Env :=
  { getGpuOperator := GetResult.found gFresh
  , getNamespace := GetResult.notFound
  , createNamespace := CreateResult.ok
  , getServiceAccount := GetResult.notFound
  , createServiceAccount := CreateResult.ok
  , getInstallJob := GetResult.notFound
  , createInstallJob := CreateResult.ok
  , getInstallJob2 := GetResult.found jobRunning
  , createUninstallJob := CreateResult.ok
  , statusUpdate := none
  , update := none
  , now := 0 }

/-- A resource being processed whose install job is still running. -/
def envPending : Env :=
  { getGpuOperator := GetResult.found gProc
  , getNamespace := GetResult.found ()
  , createNamespace := CreateResult.ok
  , getServiceAccount := GetResult.found ()
  , createServiceAccount := CreateResult.ok
  , getInstallJob := GetResult.found jobRunning
  , createInstallJob := CreateResult.ok
  , getInstallJob2 := GetResult.found jobRunning
  , createUninstallJob := CreateResult.ok
  , statusUpdate := none
  , update := none
  , now := 2 }

/-- A resource marked for deletion, still carrying the finalizer, with an
install job still pending. -/
def gDeleting : GpuOperator :=
  { generation := 4
  , nspace := "custom-ns"
  , deletionTimestamp := some 100
  , finalizers := [finalizerName, "other.io/keep"]
  , spec := { driverVersion := "570", nspace := "custom-ns", valuesConfigMapName := "" }
  , status := { state := StateProcessing, conditions := [], installedVersion := "", observedGeneration := 0 } }

/-- A deletion tick in which the Deleting status write and the uninstall-job
Create both fail, but the finalizer-removing Update succeeds. -/
def envDeleting : Env :=
  { getGpuOperator := GetResult.found gDeleting
  , getNamespace := GetResult.found ()
  , createNamespace := CreateResult.ok
  , getServiceAccount := GetResult.found ()
  , createServiceAccount := CreateResult.ok
  , getInstallJob := GetResult.found jobRunning
  , createInstallJob := CreateResult.ok
  , getInstallJob2 := GetResult.found jobRunning
  , createUninstallJob := CreateResult.error "api down"
  , statusUpdate := some "status write failed"
  , update := none
  , now := 100 }

/-- A resource marked for deletion that does not carry our finalizer. -/
def gNoFinalizer : GpuOperator :=
  { generation := 4
  , nspace := "gpu-operator"
  , deletionTimestamp := some 100
  , finalizers := ["other.io/keep"]
  , spec := { driverVersion := "570", nspace := "", valuesConfigMapName := "" }
  , status := { state := StateReady, conditions := [], installedVersion := "570", observedGeneration := 4 } }

/-- A resource created in the default namespace, as the repository's sample
manifest does, while targeting the default gpu-operator install namespace:
the owner-reference step rejects the cross-namespace controller reference. -/
def gCrossNs : GpuOperator :=
  { generation := 2
  , nspace := "default"
  , deletionTimestamp := none
  , finalizers := [finalizerName]
  , spec := { driverVersion := "570", nspace := "", valuesConfigMapName := "" }
  , status := { state := StateProcessing, conditions := [], installedVersion := "", observedGeneration := 0 } }

/-- A tick on the cross-namespace resource: dependents and the fixed-name
install job all exist (the job even completed), yet the submit fails in
SetControllerReference before ever checking for the existing job. -/
def envCrossNs : Env :=
  { getGpuOperator := GetResult.found gCrossNs
  , getNamespace := GetResult.found ()
  , createNamespace := CreateResult.ok
  , getServiceAccount := GetResult.found ()
  , createServiceAccount := CreateResult.ok
  , getInstallJob := GetResult.found jobDone
  , createInstallJob := CreateResult.ok
  , getInstallJob2 := GetResult.found jobDone
  , createUninstallJob := CreateResult.ok
  , statusUpdate := none
  , update := none
  , now := 0 }

/-- A tick on the finalizer-less deleted resource. -/
def envNoFinalizer : Env :=
  { getGpuOperator := GetResult.found gNoFinalizer
  , getNamespace := GetResult.found ()
  , createNamespace := CreateResult.ok
  , getServiceAccount := GetResult.found ()
  , createServiceAccount := CreateResult.ok
  , getInstallJob := GetResult.found jobRunning
  , createInstallJob := CreateResult.ok
  , getInstallJob2 := GetResult.found jobRunning
  , createUninstallJob := CreateResult.ok
  , statusUpdate := none
  , update := none
  , now := 5 }

end GpuOp

namespace GpuOp

theorem withPrewrites_writes (ws : List Write) (o : Outcome) :
    (withPrewrites ws o).writes = ws ++ o.writes := rfl

theorem withPrewrites_error (ws : List Write) (o : Outcome) :
    (withPrewrites ws o).error = o.error := rfl

theorem withPrewrites_requeueAfter (ws : List Write) (o : Outcome) :
    (withPrewrites ws o).requeueAfter = o.requeueAfter := rfl

theorem withPrewrites_final (ws : List Write) (o : Outcome) :
    (withPrewrites ws o).final = o.final := rfl

/-- Transfers the write invariant along a change of the loaded resource that
preserves the fields the invariant reads. -/
theorem writeInv_transfer (env : Env) (g g' : GpuOperator)
    (h1 : g'.generation = g.generation)
    (h2 : g'.spec.driverVersion = g.spec.driverVersion)
    (h3 : g'.status.observedGeneration = g.status.observedGeneration)
    (h4 : effectiveNamespace g' = effectiveNamespace g) :
    ∀ w, writeInv env g' w → writeInv env g w := by
  intro w hI
  cases w with
  | statusUpdate st =>
    simp only [writeInv] at hI ⊢
    refine ⟨fun hR => ?_, fun hR => ?_⟩
    · obtain ⟨a, b, c⟩ := hI.1 hR
      exact ⟨a, by rw [b, h1], by rw [c, h2]⟩
    · rw [hI.2 hR, h3]
  | createInstallJob n =>
    simp only [writeInv] at hI ⊢
    exact ⟨by rw [hI.1, h4], hI.2⟩
  | createClusterRole n => exact hI
  | createClusterRoleBinding n => exact hI
  | update op => trivial
  | createNamespace n => trivial
  | createServiceAccount n => trivial
  | createUninstallJob n => trivial

theorem updateStatusError_writeInv (env : Env) (g : GpuOperator) (m : String) :
    ∀ w ∈ (updateStatusError env g m).writes, writeInv env g w := by
  intro w hw
  simp only [updateStatusError, List.mem_singleton] at hw
  subst hw
  simp only [writeInv]
  refine ⟨fun h => ?_, fun _ => rfl⟩
  simp [errorStatus, StateError, StateReady] at h

theorem readyWrite_writeInv (env : Env) (g : GpuOperator)
    (hpoll : isJobCompleted env.getInstallJob2 = (true, none)) :
    ∀ w ∈ (readyWrite env g).writes, writeInv env g w := by
  intro w hw
  unfold readyWrite at hw
  rcases h : env.statusUpdate with _ | m <;> rw [h] at hw <;>
    simp only [List.mem_singleton] at hw <;> subst hw <;>
    exact ⟨fun _ => ⟨hpoll, rfl, rfl⟩, fun hne => absurd rfl hne⟩

theorem pollPhase_writeInv (env : Env) (g : GpuOperator) :
    ∀ w ∈ (pollPhase env g).writes, writeInv env g w := by
  intro w hw
  unfold pollPhase at hw
  rcases hr : isJobCompleted env.getInstallJob2 with ⟨b, e⟩
  rw [hr] at hw
  cases e with
  | some m => exact updateStatusError_writeInv env g m w hw
  | none =>
    cases b with
    | false => simp at hw
    | true => exact readyWrite_writeInv env g hr w hw

theorem createHelmInstallJob_writes (ownerNs n : String) (gj : GetResult Job)
    (c : CreateResult) :
    ∀ w ∈ (createHelmInstallJob ownerNs n gj c).2,
      w = Write.createInstallJob n ∧ gj = GetResult.notFound := by
  intro w hw
  unfold createHelmInstallJob at hw
  rcases hs : setControllerReference ownerNs n with _ | m <;> rw [hs] at hw
  · cases gj <;> cases c <;> simp at hw <;> simp [hw]
  · simp at hw

theorem installJobPhase_writeInv (env : Env) (g : GpuOperator) :
    ∀ w ∈ (installJobPhase env g).writes, writeInv env g w := by
  intro w hw
  unfold installJobPhase at hw
  rcases hc : createHelmInstallJob g.nspace (effectiveNamespace g) env.getInstallJob
      env.createInstallJob with ⟨e, ws⟩
  rw [hc] at hw
  have hws : ∀ w' ∈ ws, writeInv env g w' := by
    intro w' hw'
    obtain ⟨rfl, hnf⟩ := createHelmInstallJob_writes _ _ _ _ w' (by rw [hc]; exact hw')
    exact ⟨rfl, hnf⟩
  cases e with
  | some m =>
    rw [withPrewrites_writes] at hw
    rcases List.mem_append.mp hw with h | h
    · exact hws w h
    · exact updateStatusError_writeInv env g m w h
  | none =>
    rw [withPrewrites_writes] at hw
    rcases List.mem_append.mp hw with h | h
    · exact hws w h
    · exact pollPhase_writeInv env g w h

theorem rbacPhase_writeInv (env : Env) (g : GpuOperator) :
    ∀ w ∈ (rbacPhase env g).writes, writeInv env g w := by
  intro w hw
  unfold rbacPhase ensureRBAC at hw
  simp only [withPrewrites_writes, List.nil_append] at hw
  exact installJobPhase_writeInv env g w hw

theorem ensureServiceAccount_writes (n : String) (a : GetResult Unit) (c : CreateResult) :
    ∀ w ∈ (ensureServiceAccount n a c).2, w = Write.createServiceAccount n := by
  intro w hw
  cases a <;> cases c <;> simp [ensureServiceAccount] at hw <;> exact hw

theorem saPhase_writeInv (env : Env) (g : GpuOperator) :
    ∀ w ∈ (saPhase env g).writes, writeInv env g w := by
  intro w hw
  unfold saPhase at hw
  rcases hc : ensureServiceAccount (effectiveNamespace g) env.getServiceAccount
      env.createServiceAccount with ⟨e, ws⟩
  rw [hc] at hw
  have hws : ∀ w' ∈ ws, writeInv env g w' := by
    intro w' hw'
    obtain rfl := ensureServiceAccount_writes _ _ _ w' (by rw [hc]; exact hw')
    trivial
  cases e with
  | some m =>
    rw [withPrewrites_writes] at hw
    rcases List.mem_append.mp hw with h | h
    · exact hws w h
    · exact updateStatusError_writeInv env g m w h
  | none =>
    rw [withPrewrites_writes] at hw
    rcases List.mem_append.mp hw with h | h
    · exact hws w h
    · exact rbacPhase_writeInv env g w h

theorem ensureNamespace_writes (n : String) (a : GetResult Unit) (c : CreateResult) :
    ∀ w ∈ (ensureNamespace n a c).2, w = Write.createNamespace n := by
  intro w hw
  cases a <;> cases c <;> simp [ensureNamespace] at hw <;> exact hw

theorem nsPhase_writeInv (env : Env) (g : GpuOperator) :
    ∀ w ∈ (nsPhase env g).writes, writeInv env g w := by
  intro w hw
  unfold nsPhase at hw
  rcases hc : ensureNamespace (effectiveNamespace g) env.getNamespace
      env.createNamespace with ⟨e, ws⟩
  rw [hc] at hw
  have hws : ∀ w' ∈ ws, writeInv env g w' := by
    intro w' hw'
    obtain rfl := ensureNamespace_writes _ _ _ w' (by rw [hc]; exact hw')
    trivial
  cases e with
  | some m =>
    rw [withPrewrites_writes] at hw
    rcases List.mem_append.mp hw with h | h
    · exact hws w h
    · exact updateStatusError_writeInv env g m w h
  | none =>
    rw [withPrewrites_writes] at hw
    rcases List.mem_append.mp hw with h | h
    · exact hws w h
    · exact saPhase_writeInv env g w h

end GpuOp

namespace GpuOp

theorem processingPhase_writeInv (env : Env) (g : GpuOperator) :
    ∀ w ∈ (processingPhase env g).writes, writeInv env g w := by
  intro w hw
  unfold processingPhase at hw
  split at hw
  · rcases hu : env.statusUpdate with _ | m <;> rw [hu] at hw
    · rw [withPrewrites_writes] at hw
      rcases List.mem_append.mp hw with h | h
      · simp only [List.mem_singleton] at h
        subst h
        refine ⟨fun hR => ?_, fun _ => rfl⟩
        simp [StateProcessing, StateReady] at hR
      · exact writeInv_transfer env g
          { g with status := { g.status with state := StateProcessing } } rfl rfl rfl rfl w
          (nsPhase_writeInv env { g with status := { g.status with state := StateProcessing } } w h)
    · simp only [List.mem_singleton] at hw
      subst hw
      refine ⟨fun hR => ?_, fun _ => rfl⟩
      simp [StateProcessing, StateReady] at hR
  · exact nsPhase_writeInv env g w hw

theorem addFinalizerPhase_writeInv (env : Env) (g : GpuOperator) :
    ∀ w ∈ (addFinalizerPhase env g).writes, writeInv env g w := by
  intro w hw
  unfold addFinalizerPhase at hw
  split at hw
  · exact processingPhase_writeInv env g w hw
  · rcases hu : env.update with _ | m <;> rw [hu] at hw
    · rw [withPrewrites_writes] at hw
      rcases List.mem_append.mp hw with h | h
      · simp only [List.mem_singleton] at h
        subst h
        trivial
      · exact writeInv_transfer env g
          { g with finalizers := g.finalizers ++ [finalizerName] } rfl rfl rfl rfl w
          (processingPhase_writeInv env
            { g with finalizers := g.finalizers ++ [finalizerName] } w h)
    · simp only [List.mem_singleton] at hw
      subst hw
      trivial

theorem deletionPhase_writeInv (env : Env) (g : GpuOperator) :
    ∀ w ∈ (deletionPhase env g).writes, writeInv env g w := by
  intro w hw
  unfold deletionPhase at hw
  split at hw
  · have hws : w ∈ [Write.statusUpdate (deletingStatus g)
        , Write.createUninstallJob (effectiveNamespace g)
        , Write.update (finalizedOp g)] := by
      rcases hu : env.update with _ | m <;> rw [hu] at hw <;> exact hw
    simp only [List.mem_cons, List.not_mem_nil, or_false] at hws
    rcases hws with rfl | rfl | rfl
    · refine ⟨fun hR => ?_, fun _ => rfl⟩
      simp [deletingStatus, StateDeleting, StateReady] at hR
    · trivial
    · trivial
  · simp at hw

/-- Every write of a tick that loaded the resource g satisfies the write
invariant: the master lemma behind the status-write claims. -/
theorem reconcile_writeInv (env : Env) (g : GpuOperator)
    (hget : env.getGpuOperator = GetResult.found g) :
    ∀ w ∈ (Reconcile env).writes, writeInv env g w := by
  intro w hw
  unfold Reconcile at hw
  rw [hget] at hw
  dsimp only at hw
  rcases hd : g.deletionTimestamp with _ | t <;> rw [hd] at hw <;> dsimp only at hw
  · exact addFinalizerPhase_writeInv env g w hw
  · exact deletionPhase_writeInv env g w hw

/-- The poll never reports success and an error together: the loop of
isJobCompleted returns (true, nil) or (false, _). -/
theorem jobConditionsOutcome_exclusive (l : List JobCondition) :
    (jobConditionsOutcome l).1 = true → (jobConditionsOutcome l).2 = none := by
  induction l with
  | nil => intro h; simp [jobConditionsOutcome] at h
  | cons c rest ih =>
    intro h
    unfold jobConditionsOutcome at h ⊢
    by_cases h1 : c.type_ = "Complete" ∧ c.status = "True"
    · rw [if_pos h1]
    · by_cases h2 : c.type_ = "Failed" ∧ c.status = "True"
      · rw [if_neg h1, if_pos h2] at h
        simp at h
      · rw [if_neg h1, if_neg h2] at h ⊢
        exact ih h

theorem isJobCompleted_exclusive (r : GetResult Job) :
    (isJobCompleted r).1 = true → (isJobCompleted r).2 = none := by
  cases r with
  | found job => exact jobConditionsOutcome_exclusive job.conditions
  | notFound => intro h; simp [isJobCompleted] at h
  | error m => intro h; simp [isJobCompleted] at h

end GpuOp

namespace GpuOp

theorem withPrewrites_nil (o : Outcome) : withPrewrites [] o = o := rfl

/-- When namespace, service account and install job are all present, the
dependent-ensuring steps perform no call beyond their Gets and the tick
proceeds straight to the poll. -/
theorem nsPhase_allFound (env : Env) (g : GpuOperator) (j : Job)
    (hns : env.getNamespace = GetResult.found ())
    (hsa : env.getServiceAccount = GetResult.found ())
    (hjob : env.getInstallJob = GetResult.found j)
    (hown : setControllerReference g.nspace (effectiveNamespace g) = none) :
    nsPhase env g = pollPhase env g := by
  unfold nsPhase ensureNamespace
  rw [hns]
  dsimp only
  rw [withPrewrites_nil]
  unfold saPhase ensureServiceAccount
  rw [hsa]
  dsimp only
  rw [withPrewrites_nil]
  unfold rbacPhase ensureRBAC
  dsimp only
  rw [withPrewrites_nil]
  unfold installJobPhase createHelmInstallJob
  rw [hown]
  dsimp only
  rw [hjob]
  dsimp only
  rw [withPrewrites_nil]

/-- A forward tick on a resource that already carries the finalizer starts
at the Processing step. -/
theorem reconcile_forward (env : Env) (g : GpuOperator)
    (hget : env.getGpuOperator = GetResult.found g)
    (hdel : g.deletionTimestamp = none)
    (hfin : finalizerName ∈ g.finalizers) :
    Reconcile env = processingPhase env g := by
  unfold Reconcile
  rw [hget]
  dsimp only
  rw [hdel]
  dsimp only
  unfold addFinalizerPhase
  rw [if_pos hfin]

theorem processingPhase_write (env : Env) (g : GpuOperator)
    (hne : g.status.state ≠ StateProcessing)
    (hsu : env.statusUpdate = none) :
    processingPhase env g = withPrewrites
      [Write.statusUpdate { g.status with state := StateProcessing }]
      (nsPhase env { g with status := { g.status with state := StateProcessing } }) := by
  unfold processingPhase
  rw [if_pos hne, hsu]

theorem processingPhase_skip (env : Env) (g : GpuOperator)
    (heq : g.status.state = StateProcessing) :
    processingPhase env g = nsPhase env g := by
  unfold processingPhase
  rw [if_neg (not_not_intro heq)]

theorem pollPhase_pending (env : Env) (g : GpuOperator)
    (hpoll : isJobCompleted env.getInstallJob2 = (false, none)) :
    pollPhase env g =
      { requeueAfter := 10, error := none, writes := [], final := some g } := by
  unfold pollPhase
  rw [hpoll]
  rfl

theorem pollPhase_succeeded (env : Env) (g : GpuOperator)
    (hpoll : isJobCompleted env.getInstallJob2 = (true, none)) :
    pollPhase env g = readyWrite env g := by
  unfold pollPhase
  rw [hpoll]
  rfl

theorem pollPhase_failed (env : Env) (g : GpuOperator) (m : String)
    (hpoll : isJobCompleted env.getInstallJob2 = (false, some m)) :
    pollPhase env g = updateStatusError env g m := by
  unfold pollPhase
  rw [hpoll]

end GpuOp

namespace GpuOp

/-- Claim C1, counterexample: on a fully converged resource (state Ready,
finalizer present, dependents and install job existing, job Succeeded,
observedGeneration equal to the generation), Reconcile is not write-free:
the tick performs two status writes (Processing, then Ready again). -/
theorem C1_counterexample :
    gConv.status.state = StateReady ∧
    gConv.status.observedGeneration = gConv.generation ∧
    finalizerName ∈ gConv.finalizers ∧
    gConv.deletionTimestamp = none ∧
    isJobCompleted envConv.getInstallJob2 = (true, none) ∧
    (Reconcile envConv).writes ≠ [] ∧
    (Reconcile envConv).writes.length = 2 := by decide

/-- Claim C1 (amended): reconciling a fully converged resource performs
exactly two status writes — an intermediate Processing write and a Ready
write that recomputes the conditions at the tick's clock — and no other
write; the tick returns success with no requeue, the resulting status is the
canonical Ready status, and the resource (status included) is byte-identical
before and after precisely when its stored status already equals that
canonical status (in particular when the condition timestamps coincide). -/
theorem C1_reconverge_two_writes (env : Env) (g : GpuOperator) (j : Job)
    (hget : env.getGpuOperator = GetResult.found g)
    (hdel : g.deletionTimestamp = none)
    (hfin : finalizerName ∈ g.finalizers)
    (hstate : g.status.state = StateReady)
    (hsu : env.statusUpdate = none)
    (hns : env.getNamespace = GetResult.found ())
    (hsa : env.getServiceAccount = GetResult.found ())
    (hjob : env.getInstallJob = GetResult.found j)
    (hown : setControllerReference g.nspace (effectiveNamespace g) = none)
    (hpoll : isJobCompleted env.getInstallJob2 = (true, none)) :
    Reconcile env =
      { requeueAfter := 0
      , error := none
      , writes := [Write.statusUpdate { g.status with state := StateProcessing }
          , Write.statusUpdate (readyStatus env g)]
      , final := some { g with status := readyStatus env g } } ∧
    (g.status = readyStatus env g → (Reconcile env).final = some g) := by
  have hne : g.status.state ≠ StateProcessing := by
    rw [hstate]
    simp [StateReady, StateProcessing]
  have hmain : Reconcile env =
      { requeueAfter := 0
      , error := none
      , writes := [Write.statusUpdate { g.status with state := StateProcessing }
          , Write.statusUpdate (readyStatus env g)]
      , final := some { g with status := readyStatus env g } } := by
    rw [reconcile_forward env g hget hdel hfin,
      processingPhase_write env g hne hsu,
      nsPhase_allFound env { g with status := { g.status with state := StateProcessing } } j hns hsa hjob hown,
      pollPhase_succeeded env { g with status := { g.status with state := StateProcessing } } hpoll]
    unfold readyWrite
    rw [hsu]
    rfl
  refine ⟨hmain, fun hcanon => ?_⟩
  rw [hmain]
  show some { g with status := readyStatus env g } = some g
  rw [← hcanon]

/-- Claim C1, witness: the amended statement at the concrete converged
fixture, where the tick's clock matches the stored condition timestamps, so
the final resource is byte-identical to the loaded one. -/
theorem C1_reconverge_two_writes_witness :
    (Reconcile envConv).writes.length = 2 ∧
    (Reconcile envConv).final = some gConv := by
  have h := C1_reconverge_two_writes envConv gConv jobDone rfl rfl (by decide)
    rfl rfl rfl rfl rfl (by decide) (by decide)
  refine ⟨?_, h.2 (by decide)⟩
  rw [h.1]
  rfl

/-- Claim C2, counterexample: when the install job reports Failed with
message timeout, the controller does write state Error with the single
ReconciliationFailed condition, but it does not return a terminal outcome:
Reconcile returns a non-nil error, which the framework retries with backoff
regardless of the generation. -/
theorem C2_counterexample :
    (Reconcile envFailed).error = some "helm installation job failed: timeout" ∧
    (Reconcile envFailed).error ≠ none ∧
    ((Reconcile envFailed).final.map fun o => o.status.state) = some StateError ∧
    ((Reconcile envFailed).final.map fun o => o.status.conditions.length) = some 1 := by
  decide

/-- Claim C2 (amended): when the install job carries a Failed True terminal
condition with a failure message, the tick transitions status.state to
Error, writes exactly one condition with status False, reason
ReconciliationFailed and message the wrapped failure message (so containing
the job's message), and returns that wrapped message as a non-nil error —
so the framework requeues the reconcile with backoff; the failure is not
terminal-for-this-generation. -/
theorem C2_failed_job_error_status (env : Env) (g : GpuOperator) (j jf : Job)
    (fmsg : String)
    (hget : env.getGpuOperator = GetResult.found g)
    (hdel : g.deletionTimestamp = none)
    (hfin : finalizerName ∈ g.finalizers)
    (hsu : env.statusUpdate = none)
    (hns : env.getNamespace = GetResult.found ())
    (hsa : env.getServiceAccount = GetResult.found ())
    (hjob : env.getInstallJob = GetResult.found j)
    (hown : setControllerReference g.nspace (effectiveNamespace g) = none)
    (hjf : env.getInstallJob2 = GetResult.found jf)
    (hconds : jf.conditions = [{ type_ := "Failed", status := "True", message := fmsg }]) :
    (Reconcile env).error = some ("helm installation job failed: " ++ fmsg) ∧
    (Reconcile env).error ≠ none ∧
    (Reconcile env).final = some { g with status := { g.status with state := StateError, conditions := [{ type_ := conditionTypeReady, status := "False", reason := "ReconciliationFailed", message := "helm installation job failed: " ++ fmsg, observedGeneration := g.generation, lastTransitionTime := env.now }] } } := by
  have hpoll : isJobCompleted env.getInstallJob2 =
      (false, some ("helm installation job failed: " ++ fmsg)) := by
    rw [hjf]
    show jobConditionsOutcome jf.conditions = _
    rw [hconds]
    unfold jobConditionsOutcome
    rw [if_neg (by simp), if_pos (by simp)]
  have hout : (Reconcile env).error = some ("helm installation job failed: " ++ fmsg) ∧
      (Reconcile env).final = some { g with status := { g.status with state := StateError, conditions := [{ type_ := conditionTypeReady, status := "False", reason := "ReconciliationFailed", message := "helm installation job failed: " ++ fmsg, observedGeneration := g.generation, lastTransitionTime := env.now }] } } := by
    rw [reconcile_forward env g hget hdel hfin]
    by_cases hst : g.status.state = StateProcessing
    · rw [processingPhase_skip env g hst, nsPhase_allFound env g j hns hsa hjob hown,
        pollPhase_failed env g _ hpoll]
      exact ⟨rfl, rfl⟩
    · rw [processingPhase_write env g hst hsu,
        nsPhase_allFound env { g with status := { g.status with state := StateProcessing } } j hns hsa hjob hown,
        pollPhase_failed env { g with status := { g.status with state := StateProcessing } } _ hpoll]
      exact ⟨rfl, rfl⟩
  refine ⟨hout.1, ?_, hout.2⟩
  rw [hout.1]
  exact Option.some_ne_none _

/-- Claim C2, witness: the amended statement at the concrete failed-job
fixture with message timeout. -/
theorem C2_failed_job_witness :
    (Reconcile envFailed).error = some "helm installation job failed: timeout" := by
  have h := C2_failed_job_error_status envFailed gProc jobFailedTimeout
    jobFailedTimeout "timeout" rfl rfl (by decide) rfl rfl rfl rfl (by decide) rfl rfl
  exact h.1

/-- Claim C3, counterexample: a tick at generation 5 that ends in the Error
write (service-account Get fails hard) leaves status.observedGeneration at
its stale value 0: observedGeneration is not advanced on a fully-failed
(Error) write, contradicting the claim's "exactly when Ready or Error". -/
theorem C3_counterexample :
    gGen5.generation = 5 ∧
    gGen5.status.observedGeneration = 0 ∧
    Write.statusUpdate (errorStatus envSaError gGen5 "boom") ∈ (Reconcile envSaError).writes ∧
    (errorStatus envSaError gGen5 "boom").state = StateError ∧
    (errorStatus envSaError gGen5 "boom").observedGeneration ≠ gGen5.generation ∧
    ((Reconcile envSaError).final.map fun o => o.status.observedGeneration) = some 0 := by
  decide

/-- Claim C3 (amended): for every status write of a tick that loaded the
resource, observedGeneration is advanced to the current metadata generation
exactly when the write reflects the fully-converged Ready outcome; every
other write — intermediate Processing, fully-failed Error, and Deleting —
leaves observedGeneration at its loaded value. -/
theorem C3_observed_generation_tracking (env : Env) (g : GpuOperator)
    (hget : env.getGpuOperator = GetResult.found g) :
    ∀ st, Write.statusUpdate st ∈ (Reconcile env).writes →
      (st.state = StateReady → st.observedGeneration = g.generation) ∧
      (st.state ≠ StateReady → st.observedGeneration = g.status.observedGeneration) := by
  intro st hmem
  have h := reconcile_writeInv env g hget _ hmem
  exact ⟨fun hR => (h.1 hR).2.1, h.2⟩

/-- Claim C3, witness: the amended statement applied to the Error write of
the concrete failing tick: its observedGeneration equals the loaded one. -/
theorem C3_observed_generation_witness :
    (errorStatus envSaError gGen5 "boom").observedGeneration
      = gGen5.status.observedGeneration := by
  have h := C3_observed_generation_tracking envSaError gGen5 rfl
    (errorStatus envSaError gGen5 "boom") (by decide)
  exact h.2 (by decide)

/-- Claim C4, counterexample: the service-account ensure does not treat a
racing Create's AlreadyExists failure as success: the error is returned
(and the reconcile then ends in updateStatusError). -/
theorem C4_counterexample :
    (ensureServiceAccount "gpu-operator" GetResult.notFound
      (CreateResult.alreadyExists "serviceaccounts gpu-operator already exists")).1
      = some "serviceaccounts gpu-operator already exists" := by decide

/-- Claim C4 (amended): ensure-present semantics per dependent. Namespace:
absent means create, a racing Create's AlreadyExists is treated as success,
a non-NotFound fetch failure propagates. Service account: absent means
create and a non-NotFound fetch failure propagates, but a racing Create's
AlreadyExists is propagated as an error, not treated as success. Present
objects are left alone in both cases. -/
theorem C4_ensure_present_semantics :
    (∀ n m, ensureNamespace n GetResult.notFound (CreateResult.alreadyExists m)
      = (none, [Write.createNamespace n])) ∧
    (∀ n m, ensureServiceAccount n GetResult.notFound (CreateResult.alreadyExists m)
      = (some m, [Write.createServiceAccount n])) ∧
    (∀ n c, ensureNamespace n (GetResult.found ()) c = (none, [])) ∧
    (∀ n c, ensureServiceAccount n (GetResult.found ()) c = (none, [])) ∧
    (∀ n, ensureNamespace n GetResult.notFound CreateResult.ok
      = (none, [Write.createNamespace n])) ∧
    (∀ n, ensureServiceAccount n GetResult.notFound CreateResult.ok
      = (none, [Write.createServiceAccount n])) ∧
    (∀ n m c, ensureNamespace n (GetResult.error m) c = (some m, [])) ∧
    (∀ n m c, ensureServiceAccount n (GetResult.error m) c = (some m, [])) := by
  refine ⟨?_, ?_, ?_, ?_, ?_, ?_, ?_, ?_⟩ <;> intros <;> rfl

end GpuOp

namespace GpuOp

/-- Claim C5 (confirmed): a missing install job polls as Pending with no
error; whenever the poll is Pending, the tick returns RequeueAfter 10
seconds with no error (a scheduled re-invocation, not a blocking wait); and
the poll never reports Succeeded together with a Failed error, so the two
terminal outcomes are mutually exclusive. -/
theorem C5_pending_requeue (env : Env) (g : GpuOperator) (j : Job)
    (hget : env.getGpuOperator = GetResult.found g)
    (hdel : g.deletionTimestamp = none)
    (hfin : finalizerName ∈ g.finalizers)
    (hsu : env.statusUpdate = none)
    (hns : env.getNamespace = GetResult.found ())
    (hsa : env.getServiceAccount = GetResult.found ())
    (hjob : env.getInstallJob = GetResult.found j)
    (hown : setControllerReference g.nspace (effectiveNamespace g) = none)
    (hpend : isJobCompleted env.getInstallJob2 = (false, none)) :
    isJobCompleted GetResult.notFound = (false, none) ∧
    (Reconcile env).requeueAfter = 10 ∧
    (Reconcile env).error = none ∧
    (∀ r : GetResult Job, (isJobCompleted r).1 = true → (isJobCompleted r).2 = none) := by
  have hrec : (Reconcile env).requeueAfter = 10 ∧ (Reconcile env).error = none := by
    rw [reconcile_forward env g hget hdel hfin]
    by_cases hst : g.status.state = StateProcessing
    · rw [processingPhase_skip env g hst, nsPhase_allFound env g j hns hsa hjob hown,
        pollPhase_pending env g hpend]
      exact ⟨rfl, rfl⟩
    · rw [processingPhase_write env g hst hsu,
        nsPhase_allFound env { g with status := { g.status with state := StateProcessing } } j hns hsa hjob hown,
        pollPhase_pending env { g with status := { g.status with state := StateProcessing } } hpend]
      exact ⟨rfl, rfl⟩
  exact ⟨rfl, hrec.1, hrec.2, isJobCompleted_exclusive⟩

/-- Claim C5, witness: the statement at the concrete fixture whose install
job is running with no terminal condition yet. -/
theorem C5_pending_requeue_witness :
    (Reconcile envPending).requeueAfter = 10 ∧
    (Reconcile envPending).error = none := by
  have h := C5_pending_requeue envPending gProc jobRunning rfl rfl (by decide)
    rfl rfl rfl rfl (by decide) rfl
  exact ⟨h.2.1, h.2.2.1⟩

/-- Claim C6 (confirmed): every status write with state Ready happens in a
tick whose poll reported the install job's terminal condition Succeeded, and
that same write carries observedGeneration equal to the current generation
and installedVersion equal to spec.driverVersion. -/
theorem C6_ready_write_converged (env : Env) (g : GpuOperator)
    (hget : env.getGpuOperator = GetResult.found g) :
    ∀ st, Write.statusUpdate st ∈ (Reconcile env).writes → st.state = StateReady →
      isJobCompleted env.getInstallJob2 = (true, none) ∧
      st.observedGeneration = g.generation ∧
      st.installedVersion = g.spec.driverVersion := by
  intro st hmem hR
  exact (reconcile_writeInv env g hget _ hmem).1 hR

/-- Claim C6, witness: the statement applied to the Ready write of the
converged fixture's tick. -/
theorem C6_ready_write_witness :
    isJobCompleted envConv.getInstallJob2 = (true, none) ∧
    (readyStatus envConv gConv).observedGeneration = gConv.generation ∧
    (readyStatus envConv gConv).installedVersion = gConv.spec.driverVersion := by
  exact C6_ready_write_converged envConv gConv rfl (readyStatus envConv gConv)
    (by decide) rfl

/-- Claim C7 (confirmed): a single tick on a resource marked for deletion
that carries the finalizer attempts the Deleting status write, submits the
uninstall job, and removes the finalizer in that same tick, for every
outcome of the status write and of the uninstall submission (both are
tolerated); the tick returns success with no requeue and does not wait for
any uninstall terminal condition (no further job poll occurs). -/
theorem C7_finalizer_removed_same_tick (env : Env) (g : GpuOperator) (t : Nat)
    (hget : env.getGpuOperator = GetResult.found g)
    (hdel : g.deletionTimestamp = some t)
    (hfin : finalizerName ∈ g.finalizers)
    (hupd : env.update = none) :
    Reconcile env =
      { requeueAfter := 0
      , error := none
      , writes := [Write.statusUpdate (deletingStatus g)
          , Write.createUninstallJob (effectiveNamespace g)
          , Write.update (finalizedOp g)]
      , final := some (finalizedOp g) } ∧
    finalizerName ∉ (finalizedOp g).finalizers := by
  constructor
  · unfold Reconcile
    rw [hget]
    dsimp only
    rw [hdel]
    dsimp only
    unfold deletionPhase
    rw [if_pos hfin, hupd]
  · simp [finalizedOp, List.mem_filter]

/-- Claim C7, witness: the statement at the concrete deletion fixture in
which the Deleting status write and the uninstall submission both fail, and
the finalizer is removed all the same. -/
theorem C7_finalizer_removed_witness :
    (Reconcile envDeleting).error = none ∧
    Write.update (finalizedOp gDeleting) ∈ (Reconcile envDeleting).writes ∧
    Write.createUninstallJob "custom-ns" ∈ (Reconcile envDeleting).writes ∧
    finalizerName ∉ (finalizedOp gDeleting).finalizers := by
  have h := C7_finalizer_removed_same_tick envDeleting gDeleting 100 rfl rfl
    (by decide) rfl
  refine ⟨?_, ?_, ?_, h.2⟩
  · rw [h.1]
  · rw [h.1]
    decide
  · rw [h.1]
    decide

/-- Claim C8, counterexample: on a tick where nothing exists yet, the
controller creates the namespace, service account and install job but no
RBAC object, and the ensure-RBAC step itself returns success having created
nothing: the permission bindings are not created even when absent. -/
theorem C8_counterexample :
    ensureRBAC "gpu-operator" = (none, []) ∧
    ((Reconcile envFresh).writes.filter isRBACWrite) = [] ∧
    (Reconcile envFresh).writes ≠ [] ∧
    Write.createServiceAccount "gpu-operator" ∈ (Reconcile envFresh).writes := by
  decide

/-- Claim C8 (amended): the ensure-RBAC step is invoked on the forward path
but is a no-op: it returns success and creates nothing, and no tick ever
creates a ClusterRole or ClusterRoleBinding (the installer job relies on the
controller's own service account's permissions). -/
theorem C8_rbac_noop (env : Env) (g : GpuOperator)
    (hget : env.getGpuOperator = GetResult.found g) :
    (∀ n, ensureRBAC n = (none, [])) ∧
    (∀ w ∈ (Reconcile env).writes, isRBACWrite w = false) := by
  refine ⟨fun n => rfl, fun w hw => ?_⟩
  have h := reconcile_writeInv env g hget w hw
  cases w <;> first | rfl | exact h.elim

/-- Claim C8, witness: the amended statement at the fresh-resource fixture;
the namespace-creating write of that tick is not an RBAC write. -/
theorem C8_rbac_noop_witness :
    ensureRBAC "gpu-operator" = (none, []) ∧
    isRBACWrite (Write.createNamespace "gpu-operator") = false := by
  have h := C8_rbac_noop envFresh gFresh rfl
  exact ⟨h.1 "gpu-operator", h.2 _ (by decide)⟩

/-- Claim C9, counterexample: the submit is not error-free whenever the
fixed-name job already exists: createHelmInstallJob calls
SetControllerReference before the Get, and for a CR whose metadata.namespace
differs from the target namespace (the repository's sample creates the CR in
default while targeting gpu-operator) the cross-namespace controller
reference is rejected, so the submit returns an error even though the job
exists — and a full tick on such a resource ends in the Error status write
instead of reporting already-present. -/
theorem C9_counterexample :
    (createHelmInstallJob "default" "gpu-operator" (GetResult.found jobDone)
      CreateResult.ok).1 ≠ none ∧
    (createHelmInstallJob "default" "gpu-operator" (GetResult.found jobDone)
      CreateResult.ok).2 = [] ∧
    (Reconcile envCrossNs).error ≠ none ∧
    ((Reconcile envCrossNs).final.map fun o => o.status.state) = some StateError := by
  decide

/-- Claim C9 (amended): at most one install job with the fixed name per
namespace holds unconditionally — whenever the Get finds the job, no create
is attempted and no tick emits an install-job create, and even the
owner-reference failure path attempts no create. But the submit returns
success (already-present) rather than an error only when the
SetControllerReference step also succeeds, i.e. the CR's metadata.namespace
equals the target namespace; for a cross-namespace CR the submit returns the
wrapped owner-reference error before checking for the existing job (still
with no side effect). -/
theorem C9_submit_idempotent (env : Env) (g : GpuOperator) (j : Job)
    (hget : env.getGpuOperator = GetResult.found g)
    (hjob : env.getInstallJob = GetResult.found j)
    (hown : setControllerReference g.nspace (effectiveNamespace g) = none) :
    createHelmInstallJob g.nspace (effectiveNamespace g) env.getInstallJob
      env.createInstallJob = (none, []) ∧
    (∀ n, Write.createInstallJob n ∉ (Reconcile env).writes) ∧
    (∀ ownerNs n c, (createHelmInstallJob ownerNs n (GetResult.found j) c).2 = []) := by
  refine ⟨?_, ?_, ?_⟩
  · unfold createHelmInstallJob
    rw [hown]
    dsimp only
    rw [hjob]
  · intro n hmem
    have h := reconcile_writeInv env g hget _ hmem
    simp only [writeInv] at h
    rw [hjob] at h
    exact absurd h.2 (by simp)
  · intro ownerNs n c
    unfold createHelmInstallJob
    cases setControllerReference ownerNs n <;> rfl

/-- Claim C9, witness: the amended statement at the converged fixture, whose
CR lives in the target namespace and whose install job exists. -/
theorem C9_submit_idempotent_witness :
    createHelmInstallJob gConv.nspace (effectiveNamespace gConv)
      envConv.getInstallJob envConv.createInstallJob = (none, []) ∧
    Write.createInstallJob "gpu-operator" ∉ (Reconcile envConv).writes := by
  have h := C9_submit_idempotent envConv gConv jobDone rfl rfl (by decide)
  exact ⟨h.1, h.2.1 "gpu-operator"⟩

/-- Claim C10 (confirmed): a tick on a resource marked for deletion that
does not carry the controller's finalizer returns success immediately: no
requeue, no error, no write of any kind, and the in-memory resource is
exactly as loaded. -/
theorem C10_deleted_without_finalizer_noop (env : Env) (g : GpuOperator) (t : Nat)
    (hget : env.getGpuOperator = GetResult.found g)
    (hdel : g.deletionTimestamp = some t)
    (hfin : finalizerName ∉ g.finalizers) :
    Reconcile env = { requeueAfter := 0, error := none, writes := [], final := some g } := by
  unfold Reconcile
  rw [hget]
  dsimp only
  rw [hdel]
  dsimp only
  unfold deletionPhase
  rw [if_neg hfin]

/-- Claim C10, witness: the statement at the concrete fixture deleted
without our finalizer. -/
theorem C10_deleted_without_finalizer_witness :
    Reconcile envNoFinalizer =
      { requeueAfter := 0, error := none, writes := [], final := some gNoFinalizer } := by
  exact C10_deleted_without_finalizer_noop envNoFinalizer gNoFinalizer 100 rfl rfl
    (by decide)

end GpuOp
